import Mathlib

/-!
Shallow embedding of the vyakarana repository's parsing and model layer
(`vyakarana/models`): sutra identifiers, carryover (anuvritti / adhikara)
parsing, type-classification parsing, word analysis, and the sutra
collection's text search.

Python strings are modelled as Lean `String`s; the Python `str` operations
used by the source (`split`, `strip`, `lower`, `in`, `int(...)`) are given
executable definitions over the underlying character lists so that concrete
inputs evaluate by `decide` / `rfl`.
-/

namespace Vyakarana

/-- Whitespace as stripped by Python `str.strip()` (ASCII fragment; the
source corpus and the test inputs use only ASCII whitespace). -/
def pyIsSpace (c : Char) : Bool :=
  c == ' ' || c == '\t' || c == '\n' || c == '\r' || c == '\x0b' || c == '\x0c'

/-- Strip `pyIsSpace` characters from both ends of a character list. -/
def stripList (l : List Char) : List Char :=
  ((l.dropWhile pyIsSpace).reverse.dropWhile pyIsSpace).reverse

/-- Python `s.strip()`. -/
def pyStrip (s : String) : String := ⟨stripList s.data⟩

/-- Split a character list on a single separator character, keeping empty
pieces, as Python `s.split(sep)` does for a one-character separator. -/
def splitOnChar (sep : Char) : List Char → List (List Char)
  | [] => [[]]
  | c :: rest =>
    if c == sep then [] :: splitOnChar sep rest
    else
      match splitOnChar sep rest with
      | [] => [[c]]
      | t :: ts => (c :: t) :: ts

/-- Split a character list on the two-character separator `"##"`,
left-to-right and non-overlapping, as Python `s.split("##")` does. -/
def splitOnHashHash : List Char → List (List Char)
  | [] => [[]]
  | [c] => [[c]]
  | c :: d :: rest =>
    if c == '#' && d == '#' then [] :: splitOnHashHash rest
    else
      match splitOnHashHash (d :: rest) with
      | [] => [[c]]
      | t :: ts => (c :: t) :: ts

/-- Python `s.split("$")`. -/
def pySplitDollar (s : String) : List String :=
  (splitOnChar '$' s.data).map String.mk

/-- Python `s.split("##")`. -/
def pySplitEntries (s : String) : List String :=
  (splitOnHashHash s.data).map String.mk

/-- Numeric value of a digit run (most significant first). -/
def digitsToNat (l : List Char) : Nat :=
  l.foldl (fun a c => 10 * a + (c.toNat - '0'.toNat)) 0

/-- Numeric value of a digit character. -/
def charDigitVal (c : Char) : Int := ((c.toNat - '0'.toNat : Nat) : Int)

/-- Python `int(c)` on a single character: an ASCII digit, anything else
raises `ValueError` (modelled as `none`). -/
def digitVal? (c : Char) : Option Int :=
  if c.isDigit then some (charDigitVal c) else none

/-- Python `int(s)`: surrounding whitespace is ignored, an optional single
sign is allowed, and the remainder must be a nonempty digit run (ASCII
digits; the corpus contains no underscore separators or non-ASCII digits).
Failure (`ValueError`) is modelled as `none`. -/
def pyInt? (s : String) : Option Int :=
  match stripList s.data with
  | [] => none
  | '+' :: ds =>
    if !ds.isEmpty && ds.all Char.isDigit then some ((digitsToNat ds : Nat) : Int)
    else none
  | '-' :: ds =>
    if !ds.isEmpty && ds.all Char.isDigit then some (-((digitsToNat ds : Nat) : Int))
    else none
  | ds =>
    if ds.all Char.isDigit then some ((digitsToNat ds : Nat) : Int)
    else none

/-- Python `needle in hay` for strings: contiguous substring test. -/
def listContainsSub (needle : List Char) : List Char → Bool
  | [] => needle.isEmpty
  | l@(_ :: rest) => needle.isPrefixOf l || listContainsSub needle rest

/-- Python `needle in hay`. -/
def pyContains (hay needle : String) : Bool :=
  listContainsSub needle.data hay.data

/-- Python `s.lower()` (ASCII case folding; the searched fields are
Devanagari or ASCII transliteration). -/
def pyLower (s : String) : String := ⟨s.data.map Char.toLower⟩

/-- `vyakarana/models/identifiers.py`: `SutraIdentifier` dataclass fields. -/
structure SutraIdentifier where
  adhyaya : Int
  pada : Int
  number : Int
deriving DecidableEq, Repr

/-- `SutraIdentifier.__post_init__` range validation: construction raises
`ValueError` (modelled as `none`) unless `1 <= adhyaya <= 8`,
`1 <= pada <= 4` and `1 <= number`. -/
def SutraIdentifier.mk? (adhyaya pada number : Int) : Option SutraIdentifier :=
  if ¬ (1 ≤ adhyaya ∧ adhyaya ≤ 8) then none
  else if ¬ (1 ≤ pada ∧ pada ≤ 4) then none
  else if number < 1 then none
  else some ⟨adhyaya, pada, number⟩

/-- `SutraIdentifier.reference`: the formatted string `"a.p.n"`. -/
def SutraIdentifier.reference (i : SutraIdentifier) : String :=
  toString i.adhyaya ++ "." ++ toString i.pada ++ "." ++ toString i.number

/-- `vyakarana/models/identifiers.py`: `SutraReference` dataclass. -/
structure SutraReference where
  sutra_id : SutraIdentifier
  text_portion : String
deriving DecidableEq, Repr

/-- `vyakarana/models/enums.py`: `CarryoverType`. -/
inductive CarryoverType where
  | anuvritti
  | adhikara
deriving DecidableEq, Repr

/-- `vyakarana/models/carryover.py`: `SutraCarryover` dataclass fields. -/
structure SutraCarryover where
  carryover_type : CarryoverType
  references : List SutraReference
  combined_text : String
deriving DecidableEq, Repr

/-- `SutraCarryover.is_anuvritti`. -/
def SutraCarryover.is_anuvritti (c : SutraCarryover) : Bool :=
  c.carryover_type == CarryoverType.anuvritti

/-- `SutraCarryover.is_adhikara`. -/
def SutraCarryover.is_adhikara (c : SutraCarryover) : Bool :=
  c.carryover_type == CarryoverType.adhikara

/-- One iteration of the entry loop in `SutraCarryover.from_string`
(`carryover.py` lines 73-122); `none` is the Python `continue`.  The guard
`"$" not in entry` and the guard `len(parts) < 2` both reduce to
`parts.length < 2`, because splitting on `"$"` yields one more part than
there are `"$"` occurrences.  The wrapping `try/except (ValueError,
IndexError)` around `int(...)` and `SutraIdentifier(...)` is modelled by
the `Option` results of `digitVal?`, `pyInt?` and `SutraIdentifier.mk?`. -/
def parseCarryoverEntry (carryover_type : CarryoverType) (entry : String) :
    Option SutraReference :=
  let parts := pySplitDollar entry
  if parts.length < 2 then none
  else
    let text := pyStrip (parts.headD "")
    match carryover_type with
    | CarryoverType.anuvritti =>
      if parts.length = 2 then
        let ref_str := pyStrip (parts.getD 1 "")
        if 5 ≤ ref_str.data.length then
          match ref_str.data with
          | c0 :: c1 :: rest =>
            match digitVal? c0, digitVal? c1, pyInt? ⟨rest⟩ with
            | some adhyaya, some pada, some number =>
              (SutraIdentifier.mk? adhyaya pada number).map
                fun sid => { sutra_id := sid, text_portion := text }
            | _, _, _ => none
          | _ => none
        else none
      else none
    | CarryoverType.adhikara =>
      if parts.length = 4 then
        match pyInt? (pyStrip (parts.getD 1 "")), pyInt? (pyStrip (parts.getD 2 "")),
            pyInt? (pyStrip (parts.getD 3 "")) with
        | some adhyaya, some pada, some number =>
          (SutraIdentifier.mk? adhyaya pada number).map
            fun sid => { sutra_id := sid, text_portion := text }
        | _, _, _ => none
      else none

/-- `SutraCarryover.from_string` (`carryover.py` lines 47-128).  The Python
guard `if not carryover_text or not carryover_text.strip()` is equivalent
to the stripped text being empty. -/
def SutraCarryover.from_string (carryover_text : String)
    (carryover_type : CarryoverType) : SutraCarryover :=
  if pyStrip carryover_text = "" then
    { carryover_type := carryover_type, references := [],
      combined_text := carryover_text }
  else
    { carryover_type := carryover_type,
      references :=
        (pySplitEntries carryover_text).filterMap (parseCarryoverEntry carryover_type),
      combined_text := carryover_text }

/-- `vyakarana/models/carryover.py`: `Backlinks` dataclass fields. -/
structure Backlinks where
  anuvritti : SutraCarryover
  adhikara : SutraCarryover
deriving DecidableEq, Repr

/-- `Backlinks.__post_init__` (`carryover.py` lines 184-189): construction
raises `ValueError` (modelled as `none`) unless the `anuvritti` slot is
tagged `ANUVRITTI` and the `adhikara` slot is tagged `ADHIKARA`. -/
def Backlinks.mk? (anuvritti adhikara : SutraCarryover) : Option Backlinks :=
  if !anuvritti.is_anuvritti then none
  else if !adhikara.is_adhikara then none
  else some ⟨anuvritti, adhikara⟩

/-- `vyakarana/models/sutras/analysis.py`: `PadaAnalysis` dataclass fields. -/
structure PadaAnalysis where
  word : String
  gender : String
  vibhakti : Int
  vachana : Int
deriving DecidableEq, Repr

/-- `PadaAnalysis.__post_init__` (`analysis.py` lines 28-38): construction
raises `ValueError` (modelled as `none`) unless `0 <= vibhakti <= 8`,
`0 <= vachana <= 3`, and the two zero-sentinels agree. -/
def PadaAnalysis.mk? (word gender : String) (vibhakti vachana : Int) :
    Option PadaAnalysis :=
  if ¬ (0 ≤ vibhakti ∧ vibhakti ≤ 8) then none
  else if ¬ (0 ≤ vachana ∧ vachana ≤ 3) then none
  else if (vibhakti == 0) != (vachana == 0) then none
  else some ⟨word, gender, vibhakti, vachana⟩

/-- `vyakarana/models/sutras/analysis.py`: `PadaVibhaga` dataclass. -/
structure PadaVibhaga where
  words : List PadaAnalysis
deriving DecidableEq, Repr

/-- `vyakarana/models/sutras/enums.py`: `SutraType`. -/
inductive SutraType where
  | sanjna
  | paribhasha
  | vidhi
  | atidesha
  | adhikara
deriving DecidableEq, Repr

/-- Python `SutraType(type_id)`: enum lookup by value string; unknown code
raises `ValueError` (modelled as `none`). -/
def SutraType.ofCode? (s : String) : Option SutraType :=
  if s = "S" then some SutraType.sanjna
  else if s = "P" then some SutraType.paribhasha
  else if s = "V" then some SutraType.vidhi
  else if s = "AT" then some SutraType.atidesha
  else if s = "AD" then some SutraType.adhikara
  else none

/-- `vyakarana/models/sutras/classification.py`: `SutraTypeClassification`. -/
structure SutraTypeClassification where
  sutra_type : SutraType
  explanation : Option String
deriving DecidableEq, Repr

/-- `vyakarana/models/sutras/classification.py`: `SutraTypeInfo`. -/
structure SutraTypeInfo where
  classifications : List SutraTypeClassification
deriving DecidableEq, Repr

/-- One iteration of the entry loop in `SutraTypeInfo.from_string`
(`classification.py` lines 90-113); `none` is the Python `continue`.
`len(components) >= 1` is always true after a split, and `components[0]`
is truthy exactly when it is nonempty. -/
def parseClassificationEntry (part : String) : Option SutraTypeClassification :=
  if pyStrip part = "" then none
  else
    match pySplitDollar part with
    | [] => none
    | c0 :: restComps =>
      if c0 = "" then none
      else
        let type_id := pyStrip c0
        let explanation :=
          match restComps with
          | [] => none
          | c1 :: _ => if pyStrip c1 = "" then none else some (pyStrip c1)
        (SutraType.ofCode? type_id).map
          fun st => { sutra_type := st, explanation := explanation }

/-- `SutraTypeInfo.from_string` (`classification.py` lines 69-115). -/
def SutraTypeInfo.from_string (type_string : String) : SutraTypeInfo :=
  if pyStrip type_string = "" then ⟨[]⟩
  else ⟨(pySplitEntries type_string).filterMap parseClassificationEntry⟩

/-- `vyakarana/models/sutras/text_models.py`: `SutraText`. -/
structure SutraText where
  sanskrit : String
  english : String
deriving DecidableEq, Repr

/-- `vyakarana/models/sutras/text_models.py`: `SutraReferences`. -/
structure SutraReferences where
  skn : Int
  lskn : Int
  mskn : Int
  sskn : Int
  plskn : Int
  lpn : Int
  sk_chapter : Int
  lsk_chapter : Int
deriving DecidableEq, Repr

/-- `vyakarana/models/sutras/core.py`: `Sutra` dataclass fields. -/
structure Sutra where
  identifier : SutraIdentifier
  text : SutraText
  references : SutraReferences
  pada_vibhaga : Option PadaVibhaga
  sutra_type_info : SutraTypeInfo
  backlinks : Backlinks
  ss : String
deriving DecidableEq, Repr

/-- `vyakarana/models/sutras/core.py`: `SutraCollection` dataclass fields. -/
structure SutraCollection where
  name : String
  sutras : List Sutra
deriving DecidableEq, Repr

/-- The inner field loop of `SutraCollection.search_text` (`core.py` lines
279-285): the sutra is appended (once, with `break`) exactly when some of
the three searched fields contains the query text. -/
def sutraMatches (case_sensitive : Bool) (t : String) (s : Sutra) : Bool :=
  [s.text.sanskrit, s.text.english, s.ss].any fun field =>
    pyContains (if case_sensitive then field else pyLower field) t

/-- `SutraCollection.search_text` (`core.py` lines 264-287). -/
def SutraCollection.search_text (c : SutraCollection) (text : String)
    (case_sensitive : Bool) : List Sutra :=
  let t := if case_sensitive then text else pyLower text
  c.sutras.filter (sutraMatches case_sensitive t)

/-- A sample sutra whose query text occurs in all three searched fields. -/
def sampleSutra : Sutra :=
  { identifier := ⟨1, 1, 1⟩
    text := ⟨"abc", "abc"⟩
    references := ⟨0, 0, 0, 0, 0, 0, 0, 0⟩
    pada_vibhaga := none
    sutra_type_info := ⟨[]⟩
    backlinks := ⟨⟨CarryoverType.anuvritti, [], ""⟩, ⟨CarryoverType.adhikara, [], ""⟩⟩
    ss := "abc" }

/-- A one-sutra sample collection. -/
def sampleCollection : SutraCollection := ⟨"sample", [sampleSutra]⟩

/-- In-range arguments make `SutraIdentifier.mk?` succeed with exactly the
given field values. -/
theorem SutraIdentifier.mk?_eq_some {a p n : Int}
    (h1 : 1 ≤ a) (h2 : a ≤ 8) (h3 : 1 ≤ p) (h4 : p ≤ 4) (h5 : 1 ≤ n) :
    SutraIdentifier.mk? a p n = some ⟨a, p, n⟩ := by
  unfold SutraIdentifier.mk?
  rw [if_neg (by omega), if_neg (by omega), if_neg (by omega)]

/-- Claim C1: for every input string and carryover kind, `from_string`
returns normally (it is a total function: every fallible step is guarded by
`try/except` in the source), the returned carryover stores the input text
verbatim and the requested kind, and an empty or all-whitespace input
yields an empty reference list. -/
theorem from_string_total_and_preserves_input (s : String) (k : CarryoverType) :
    (SutraCarryover.from_string s k).combined_text = s ∧
    (SutraCarryover.from_string s k).carryover_type = k ∧
    (pyStrip s = "" → (SutraCarryover.from_string s k).references = []) := by
  unfold SutraCarryover.from_string
  by_cases h : pyStrip s = "" <;> simp [h]

/-- Applies `from_string_total_and_preserves_input` to the all-whitespace
input `"   "`. -/
theorem from_string_total_and_preserves_input_witness :
    (SutraCarryover.from_string "   " CarryoverType.anuvritti).references = [] :=
  (from_string_total_and_preserves_input "   " CarryoverType.anuvritti).2.2 (by decide)

/-- Claim C3 (counterexample): parsing the mixed-validity input
`"valid$111##invalid##another$222"` under WORD-CONTINUATION does not yield
the two references claimed:  the fused reference strings `"111"` and
`"222"` fail the minimum-length-5 gate. -/
theorem mixed_validity_not_two_references :
    (SutraCarryover.from_string "valid$111##invalid##another$222"
        CarryoverType.anuvritti).references ≠
      [⟨⟨1, 1, 1⟩, "valid"⟩, ⟨⟨2, 2, 2⟩, "another"⟩] := by decide

/-- Claim C3 (amended): parsing `"valid$111##invalid##another$222"` under
WORD-CONTINUATION yields zero references: `"valid$111"` and
`"another$222"` are dropped because their fused reference strings are
shorter than 5 characters, and `"invalid"` is dropped because it contains
no `"$"`. -/
theorem mixed_validity_zero_references :
    (SutraCarryover.from_string "valid$111##invalid##another$222"
        CarryoverType.anuvritti).references = [] := by decide

/-- Claim C5: `SutraIdentifier` construction succeeds if and only if the
chapter is in `[1,8]`, the quarter in `[1,4]` and the ordinal at least 1,
and on success the canonical reference string is `"{a}.{p}.{n}"`. -/
theorem identifier_range_and_reference (a p n : Int) :
    ((SutraIdentifier.mk? a p n).isSome ↔
      (1 ≤ a ∧ a ≤ 8 ∧ 1 ≤ p ∧ p ≤ 4 ∧ 1 ≤ n)) ∧
    (∀ i, SutraIdentifier.mk? a p n = some i →
      i.reference = toString a ++ "." ++ toString p ++ "." ++ toString n) := by
  constructor
  · unfold SutraIdentifier.mk?
    split_ifs with h1 h2 h3 <;> simp <;> omega
  · intro i h
    unfold SutraIdentifier.mk? at h
    split_ifs at h
    cases h
    rfl

/-- Applies `identifier_range_and_reference` at `(1, 1, 1)`. -/
theorem identifier_range_and_reference_witness :
    SutraIdentifier.reference ⟨1, 1, 1⟩ = "1.1.1" :=
  (identifier_range_and_reference 1 1 1).2 ⟨1, 1, 1⟩ (by decide)

/-- Claim C2: under WORD-CONTINUATION, an entry that splits on `"$"` into
exactly two parts whose trimmed second part has two leading digit
characters followed by at least three more characters that parse as an
integer, with the decoded triple in identifier range, yields one reference
with the trimmed first part as fragment; `"fragment$11001"` decodes to
1.1.1, and a fused string shorter than 5 characters (`"text$11"`) yields
zero references. -/
theorem anuvritti_fused_decode :
    (∀ (entry p0 p1 : String) (c0 c1 : Char) (rest : List Char) (o : Int),
      pySplitDollar entry = [p0, p1] →
      (pyStrip p1).data = c0 :: c1 :: rest →
      3 ≤ rest.length →
      c0.isDigit → c1.isDigit →
      pyInt? ⟨rest⟩ = some o →
      1 ≤ charDigitVal c0 → charDigitVal c0 ≤ 8 →
      1 ≤ charDigitVal c1 → charDigitVal c1 ≤ 4 →
      1 ≤ o →
      parseCarryoverEntry CarryoverType.anuvritti entry =
        some ⟨⟨charDigitVal c0, charDigitVal c1, o⟩, pyStrip p0⟩) ∧
    (SutraCarryover.from_string "fragment$11001" CarryoverType.anuvritti).references =
      [⟨⟨1, 1, 1⟩, "fragment"⟩] ∧
    (SutraCarryover.from_string "text$11" CarryoverType.anuvritti).references = [] := by
  refine ⟨?_, by decide, by decide⟩
  intro entry p0 p1 c0 c1 rest o hsplit hdata hlen hd0 hd1 hint ha1 ha2 hp1 hp2 ho
  simp only [parseCarryoverEntry, hsplit, List.length_cons, List.length_nil,
    List.headD, List.getD, List.getElem?_cons_succ, List.getElem?_cons_zero,
    Option.getD_some]
  norm_num
  rw [hdata]
  refine ⟨?_, ?_⟩
  · simp only [String.length, hdata, List.length_cons]
    omega
  · simp only [digitVal?, hd0, hd1, ite_true, hint]
    rw [SutraIdentifier.mk?_eq_some ha1 ha2 hp1 hp2 ho]
    rfl

/-- Applies the universal part of `anuvritti_fused_decode` to the entry
`"x$12345"`. -/
theorem anuvritti_fused_decode_witness :
    parseCarryoverEntry CarryoverType.anuvritti "x$12345" =
      some ⟨⟨1, 2, 345⟩, "x"⟩ :=
  anuvritti_fused_decode.1 "x$12345" "x" "12345" '1' '2' ['3', '4', '5'] 345
    (by decide) (by decide) (by decide) (by decide) (by decide) (by decide)
    (by decide) (by decide) (by decide) (by decide) (by decide)

/-- Claim C4: under SCOPE-GOVERNANCE only entries splitting on `"$"` into
exactly 4 parts are decoded, the trimmed parts 1, 2, 3 parse directly as
chapter, quarter, ordinal (any parse or range failure discards the entry),
and `"fragment$1$4$23"` yields one reference with identifier 1.4.23. -/
theorem adhikara_explicit_decode :
    (∀ entry : String, (pySplitDollar entry).length ≠ 4 →
      parseCarryoverEntry CarryoverType.adhikara entry = none) ∧
    (∀ entry p0 p1 p2 p3 : String,
      pySplitDollar entry = [p0, p1, p2, p3] →
      parseCarryoverEntry CarryoverType.adhikara entry =
        (match pyInt? (pyStrip p1), pyInt? (pyStrip p2), pyInt? (pyStrip p3) with
          | some a, some q, some n =>
            (SutraIdentifier.mk? a q n).map
              fun sid => { sutra_id := sid, text_portion := pyStrip p0 }
          | _, _, _ => none)) ∧
    (SutraCarryover.from_string "fragment$1$4$23" CarryoverType.adhikara).references =
      [⟨⟨1, 4, 23⟩, "fragment"⟩] := by
  refine ⟨?_, ?_, by decide⟩
  · intro entry h
    simp only [parseCarryoverEntry]
    by_cases h2 : (pySplitDollar entry).length < 2
    · rw [if_pos h2]
    · rw [if_neg h2]
      simp only [if_neg h]
  · intro entry p0 p1 p2 p3 hsplit
    simp only [parseCarryoverEntry, hsplit, List.length_cons, List.length_nil,
      List.headD, List.getD, List.getElem?_cons_succ, List.getElem?_cons_zero,
      Option.getD_some]
    norm_num

/-- Applies `adhikara_explicit_decode` to a two-part entry (discarded) and
to the four-part entry `"a$1$1$3"` (decoded to 1.1.3). -/
theorem adhikara_explicit_decode_witness :
    parseCarryoverEntry CarryoverType.adhikara "a$1" = none ∧
    parseCarryoverEntry CarryoverType.adhikara "a$1$1$3" = some ⟨⟨1, 1, 3⟩, "a"⟩ :=
  ⟨adhikara_explicit_decode.1 "a$1" (by decide),
    adhikara_explicit_decode.2.1 "a$1$1$3" "a" "1" "1" "3" (by decide)⟩

/-- Claim C6: `Backlinks` construction succeeds exactly when the anuvritti
slot is tagged ANUVRITTI and the adhikara slot is tagged ADHIKARA, so every
constructed value has correctly tagged carryovers in both slots. -/
theorem backlinks_kind_validation (x y : SutraCarryover) :
    ((Backlinks.mk? x y).isSome ↔
      (x.carryover_type = CarryoverType.anuvritti ∧
        y.carryover_type = CarryoverType.adhikara)) ∧
    (∀ b, Backlinks.mk? x y = some b →
      b.anuvritti.carryover_type = CarryoverType.anuvritti ∧
      b.adhikara.carryover_type = CarryoverType.adhikara) := by
  unfold Backlinks.mk? SutraCarryover.is_anuvritti SutraCarryover.is_adhikara
  constructor
  · split_ifs with h1 h2 <;> simp_all
  · intro b h
    split_ifs at h with h1 h2
    cases h
    simp_all

/-- Applies `backlinks_kind_validation` to a correctly tagged pair of
carryovers. -/
theorem backlinks_kind_validation_witness :
    (Backlinks.mk? ⟨CarryoverType.anuvritti, [], ""⟩
        ⟨CarryoverType.adhikara, [], ""⟩).isSome ∧
    ((⟨⟨CarryoverType.anuvritti, [], ""⟩, ⟨CarryoverType.adhikara, [], ""⟩⟩ :
        Backlinks).anuvritti.carryover_type = CarryoverType.anuvritti ∧
      (⟨⟨CarryoverType.anuvritti, [], ""⟩, ⟨CarryoverType.adhikara, [], ""⟩⟩ :
        Backlinks).adhikara.carryover_type = CarryoverType.adhikara) :=
  ⟨(backlinks_kind_validation ⟨CarryoverType.anuvritti, [], ""⟩
      ⟨CarryoverType.adhikara, [], ""⟩).1.mpr ⟨rfl, rfl⟩,
    (backlinks_kind_validation ⟨CarryoverType.anuvritti, [], ""⟩
      ⟨CarryoverType.adhikara, [], ""⟩).2 _ (by decide)⟩

/-- Claim C7: for in-range `(vibhakti, vachana)` pairs, `PadaAnalysis`
construction fails exactly when one of them is the 0 sentinel and the other
is not; out-of-range values always fail. -/
theorem pada_analysis_sentinel_coupling (w g : String) (v n : Int) :
    ((0 ≤ v ∧ v ≤ 8 ∧ 0 ≤ n ∧ n ≤ 3) →
      (PadaAnalysis.mk? w g v n = none ↔ ((v = 0 ∧ n ≠ 0) ∨ (v ≠ 0 ∧ n = 0)))) ∧
    (¬ (0 ≤ v ∧ v ≤ 8 ∧ 0 ≤ n ∧ n ≤ 3) → PadaAnalysis.mk? w g v n = none) := by
  constructor
  · rintro ⟨h1, h2, h3, h4⟩
    by_cases hv : v = 0 <;> by_cases hn : n = 0 <;>
      simp [PadaAnalysis.mk?, hv, hn, h1, h2, h3, h4]
  · intro h
    unfold PadaAnalysis.mk?
    split_ifs with ha hb hc <;> try rfl
    exact absurd ⟨ha.1, ha.2, hb.1, hb.2⟩ h

/-- Applies `pada_analysis_sentinel_coupling` to the decoupled pair
`(0, 2)`. -/
theorem pada_analysis_sentinel_coupling_witness :
    PadaAnalysis.mk? "w" "S" 0 2 = none :=
  ((pada_analysis_sentinel_coupling "w" "S" 0 2).1 (by norm_num)).mpr (by norm_num)

/-- Claim C8: classification parsing keeps recognized rule-kind codes in
source order and drops only entries with an absent or unrecognized code:
`"P$explanation$##AT$text$"` yields the two classifications in order, the
unrecognized entry `"ZZ$x$"` among valid ones is dropped while the valid
ones are kept, and an entry `"code$$"` with a recognized code yields a
classification with no explanation rather than being discarded. -/
theorem classification_order_and_drops :
    (∀ (part c0 c1 : String) (cs : List String) (st : SutraType),
      pyStrip part ≠ "" →
      pySplitDollar part = c0 :: c1 :: cs →
      c0 ≠ "" →
      pyStrip c1 = "" →
      SutraType.ofCode? (pyStrip c0) = some st →
      parseClassificationEntry part = some ⟨st, none⟩) ∧
    SutraTypeInfo.from_string "P$explanation$##AT$text$" =
      ⟨[⟨SutraType.paribhasha, some "explanation"⟩,
        ⟨SutraType.atidesha, some "text"⟩]⟩ ∧
    SutraTypeInfo.from_string "P$a$##ZZ$x$##V$b$" =
      ⟨[⟨SutraType.paribhasha, some "a"⟩, ⟨SutraType.vidhi, some "b"⟩]⟩ ∧
    SutraTypeInfo.from_string "S$$" = ⟨[⟨SutraType.sanjna, none⟩]⟩ := by
  refine ⟨?_, by decide, by decide, by decide⟩
  intro part c0 c1 cs st hne hsplit hc0 hc1 hcode
  simp only [parseClassificationEntry, if_neg hne, hsplit, if_neg hc0, hc1,
    ite_true, hcode, Option.map_some']

/-- Applies the universal part of `classification_order_and_drops` to the
entry `"S$$"`. -/
theorem classification_order_and_drops_witness :
    parseClassificationEntry "S$$" = some ⟨SutraType.sanjna, none⟩ :=
  classification_order_and_drops.1 "S$$" "S" "" [""] SutraType.sanjna
    (by decide) (by decide) (by decide) (by decide) (by decide)

/-- Claim C9: `search_text` lists each sutra of the collection at most once
(a sutra matching in several of the three searched fields is still listed
once, because the result is a sublist of the collection), its per-identifier
multiplicities never exceed those of the collection, and the results keep
the collection's insertion order. -/
theorem search_text_unique_and_ordered (c : SutraCollection) (text : String)
    (case_sensitive : Bool) :
    List.Sublist (c.search_text text case_sensitive) c.sutras ∧
    (∀ i : SutraIdentifier,
      (c.search_text text case_sensitive).countP (fun s => s.identifier == i) ≤
        c.sutras.countP (fun s => s.identifier == i)) ∧
    (c.sutras.Pairwise (fun a b => a.identifier ≠ b.identifier) →
      (c.search_text text case_sensitive).Pairwise
        (fun a b => a.identifier ≠ b.identifier)) := by
  have hsub : List.Sublist (c.search_text text case_sensitive) c.sutras := by
    unfold SutraCollection.search_text
    exact List.filter_sublist c.sutras
  exact ⟨hsub, fun i => hsub.countP_le _, fun h => h.sublist hsub⟩

/-- Applies `search_text_unique_and_ordered` to the one-sutra sample
collection, whose query text occurs in all three searched fields. -/
theorem search_text_unique_and_ordered_witness :
    (sampleCollection.search_text "a" false).Pairwise
      (fun a b => a.identifier ≠ b.identifier) :=
  (search_text_unique_and_ordered sampleCollection "a" false).2.2
    (by simp [sampleCollection])

/-- Claim C10: `SutraTypeInfo.from_string` accepts an entry with no `"$"`
separator whose trimmed text is a recognized rule-kind code, producing a
classification with no explanation (e.g. the bare entry `"P"`), whereas the
carryover parser discards any entry lacking a `"$"`. -/
theorem classification_accepts_bare_code :
    (∀ (entry : String) (st : SutraType),
      pySplitDollar entry = [entry] →
      pyStrip entry ≠ "" →
      SutraType.ofCode? (pyStrip entry) = some st →
      parseClassificationEntry entry = some ⟨st, none⟩) ∧
    (∀ (entry : String) (k : CarryoverType),
      pySplitDollar entry = [entry] →
      parseCarryoverEntry k entry = none) ∧
    SutraTypeInfo.from_string "P" = ⟨[⟨SutraType.paribhasha, none⟩]⟩ := by
  refine ⟨?_, ?_, by decide⟩
  · intro entry st hsplit hne hcode
    have hentry : entry ≠ "" := by
      intro he
      exact hne (by rw [he]; rfl)
    simp only [parseClassificationEntry, if_neg hne, hsplit, if_neg hentry, hcode,
      Option.map_some']
  · intro entry k hsplit
    simp only [parseCarryoverEntry, hsplit, List.length_cons, List.length_nil]
    norm_num

/-- Applies `classification_accepts_bare_code` to the bare entries `"P"`
and `"text111"`. -/
theorem classification_accepts_bare_code_witness :
    parseClassificationEntry "P" = some ⟨SutraType.paribhasha, none⟩ ∧
    parseCarryoverEntry CarryoverType.anuvritti "text111" = none :=
  ⟨classification_accepts_bare_code.1 "P" SutraType.paribhasha
      (by decide) (by decide) (by decide),
    classification_accepts_bare_code.2.1 "text111" CarryoverType.anuvritti
      (by decide)⟩

end Vyakarana
